import Mathlib

/-!
Verification of the GameStore API layer (`ApiManager`, `DataLoader.clearCache`,
`ProductRenderer.createRatingStars`) against its design specification.

The JavaScript source is embedded shallowly:

* JSON values and `JSON.stringify` are modelled by the inductive `JSON` and
  the function `jsonStringify`.
* The `ApiManager.cache` (a JS `Map` from the request fingerprint string to
  `\x7b data, timestamp \x7d`) is modelled as an association list with the JS
  `Map.get`/`Map.set` operations `mapGet`/`mapSet` (`set` replaces the
  existing binding in place, as a JS `Map` does).
* The network is modelled by an oracle `FetchOutcome`: how many milliseconds
  the `fetch` call takes to settle (`elapsed`) and how it settles
  (`FetchSettle`): a completed response with a given HTTP status and a body
  that either parses as JSON (`success`) or does not (`badBody`), or a
  transport-level failure (`netError`).  The abort timer of
  `makeRequest` fires iff the fetch has not settled after
  `requestTimeout` milliseconds.
* Wall-clock time is an explicit `now : Nat` (milliseconds, `Date.now()` at
  the start of the call); the `Date.now()` evaluated when a fresh response is
  stored is `now + elapsed`.
* Every error the `catch` block of `makeRequest` re-throws is classified by
  its cause in the inductive `ApiError`: the abort (`timeout`), a non-2xx
  response (`httpStatus`), a body that fails JSON parsing (`malformed`), or
  a transport failure of `fetch` itself (`network`).
-/

/-- JSON values: the data `response.json()` can produce and the request
`options` object passed to `makeRequest`. -/
inductive JSON where
  | null
  | bool (b : Bool)
  | num (n : Int)
  | str (s : String)
  | arr (items : List JSON)
  | obj (fields : List (String × JSON))

mutual

/-- Model of `JSON.stringify` (no escaping of quotes inside strings is
modelled; keys are serialized in object order, as `JSON.stringify` does). -/
def jsonStringify : JSON → String
  | JSON.null => "null"
  | JSON.bool true => "true"
  | JSON.bool false => "false"
  | JSON.num n => toString n
  | JSON.str s => "\"" ++ s ++ "\""
  | JSON.arr items => "[" ++ stringifyElems items ++ "]"
  | JSON.obj fields => "\x7b" ++ stringifyFields fields ++ "\x7d"

/-- Comma-separated serialization of the elements of a JSON array. -/
def stringifyElems : List JSON → String
  | [] => ""
  | [x] => jsonStringify x
  | x :: y :: xs => jsonStringify x ++ "," ++ stringifyElems (y :: xs)

/-- Comma-separated serialization of the key/value pairs of a JSON object. -/
def stringifyFields : List (String × JSON) → String
  | [] => ""
  | [(k, v)] => "\"" ++ k ++ "\":" ++ jsonStringify v
  | (k, v) :: p :: xs =>
      "\"" ++ k ++ "\":" ++ jsonStringify v ++ "," ++ stringifyFields (p :: xs)

end

/-- One cache entry: the object `\x7b data, timestamp: Date.now() \x7d` stored
by `makeRequest` on a successful fetch. -/
structure CacheEntry where
  data : JSON
  timestamp : Nat

/-- The `ApiManager.cache` JS `Map`, as an association list from the
fingerprint string to the entry.  A JS `Map` holds at most one binding per
key; here this is the `Nodup` invariant proved below. -/
abbrev Cache := List (String × CacheEntry)

/-- JS `Map.prototype.get` (also covers the `has` check of `makeRequest`:
`has` is true iff `get` is `some`). -/
def mapGet : Cache → String → Option CacheEntry
  | [], _ => none
  | (k, v) :: rest, key => if k = key then some v else mapGet rest key

/-- JS `Map.prototype.set`: replaces the existing binding for the key in
place, or appends a new binding at the end. -/
def mapSet : Cache → String → CacheEntry → Cache
  | [], key, v => [(key, v)]
  | (k, w) :: rest, key, v =>
      if k = key then (key, v) :: rest else (k, w) :: mapSet rest key v

/-- The mutable state of the (singleton) `ApiManager`: its response cache. -/
structure ApiManagerState where
  cache : Cache

/-- `this.requestTimeout = 10000; // 10 segundos` -/
def requestTimeout : Nat := 10000

/-- `this.baseUrls.products = 'https://fakestoreapi.com/products'` -/
def baseUrlProducts : String := "https://fakestoreapi.com/products"

/-- The fingerprint: `` const cacheKey = `$\x7burl\x7d_$\x7bJSON.stringify(options)\x7d` ``. -/
def cacheKey (url : String) (options : List (String × JSON)) : String :=
  url ++ "_" ++ jsonStringify (JSON.obj options)

/-- Classification of the failures `makeRequest` can re-throw, by cause. -/
inductive ApiError where
  | timeout
  | httpStatus (status : Nat)
  | malformed
  | network

/-- How the underlying `fetch` settles once it does. -/
inductive FetchSettle where
  | success (status : Nat) (body : JSON)
  | badBody (status : Nat)
  | netError

/-- Network oracle for one `fetch` call: milliseconds until it settles, and
how it settles. -/
structure FetchOutcome where
  elapsed : Nat
  settle : FetchSettle

/-- `response.ok`: the HTTP status is in the 2xx range. -/
def responseOk (status : Nat) : Bool := 200 ≤ status && status ≤ 299

/-- What one `makeRequest` call produces: its returned data or thrown error,
the `ApiManager` state afterwards, and how many network requests the call
issued (0 or 1). -/
structure RequestResult where
  result : Except ApiError JSON
  state : ApiManagerState
  networkRequests : Nat

/-- The `try` block of `makeRequest` from the `fetch` call on, together with
the `catch` that classifies the thrown error: race the fetch against the
abort timer, check `response.ok`, parse the body, store the parsed data in
the cache with the current timestamp. -/
def fetchAndStore (st : ApiManagerState) (now : Nat) (key : String)
    (outcome : FetchOutcome) : RequestResult :=
  if requestTimeout < outcome.elapsed then
    -- the abort timer fires first: `fetch` rejects with `AbortError`
    ⟨Except.error ApiError.timeout, st, 1⟩
  else
    match outcome.settle with
    | FetchSettle.netError =>
        -- transport-level failure of `fetch` itself
        ⟨Except.error ApiError.network, st, 1⟩
    | FetchSettle.badBody status =>
        if responseOk status then
          -- `response.json()` throws: body is not valid JSON
          ⟨Except.error ApiError.malformed, st, 1⟩
        else
          -- `if (!response.ok) throw new Error(...)` happens before parsing
          ⟨Except.error (ApiError.httpStatus status), st, 1⟩
    | FetchSettle.success status data =>
        if responseOk status then
          -- `this.cache.set(cacheKey, \x7b data, timestamp: Date.now() \x7d)`
          ⟨Except.ok data, ⟨mapSet st.cache key ⟨data, now + outcome.elapsed⟩⟩, 1⟩
        else
          ⟨Except.error (ApiError.httpStatus status), st, 1⟩

/-- `ApiManager.makeRequest(url, options)`: check the cache first and serve a
fresh entry without touching the network; otherwise fetch. -/
def makeRequest (st : ApiManagerState) (now : Nat) (url : String)
    (options : List (String × JSON)) (outcome : FetchOutcome) : RequestResult :=
  let key := cacheKey url options
  match mapGet st.cache key with
  | some cachedData =>
      if now - cachedData.timestamp < 300000 then
        -- 5 minutos
        ⟨Except.ok cachedData.data, st, 0⟩
      else
        fetchAndStore st now key outcome
  | none => fetchAndStore st now key outcome

/-- `ApiManager.fetchProducts(limit)`: calls `makeRequest` on the products
URL and degrades any failure to an empty array. -/
def fetchProducts (st : ApiManagerState) (now : Nat) (limit : Nat)
    (outcome : FetchOutcome) : JSON × ApiManagerState :=
  let url := baseUrlProducts ++ "?limit=" ++ toString limit
  let r := makeRequest st now url [] outcome
  match r.result with
  | Except.ok data => (data, r.state)
  | Except.error _ => (JSON.arr [], r.state)

/-- `DataLoader.clearCache()`: `this.apiManager.cache.clear()`. -/
def clearCache (_st : ApiManagerState) : ApiManagerState := ⟨[]⟩

/-- One `ApiManager` object as the constructor builds it.  `objId` stands for
the JS object identity (two expressions denote the same object iff they have
the same `objId`); the remaining fields are the ones the constructor
initializes. -/
structure ApiManagerObject where
  objId : Nat
  cache : Cache
  requestTimeoutMs : Nat

/-- The static side of the class: the `ApiManager.instance` slot, plus a
supply of fresh object identities for `new`. -/
structure ApiManagerStatic where
  registered : Option ApiManagerObject
  nextObjId : Nat

/-- `new ApiManager()`: if `ApiManager.instance` exists, return it;
otherwise initialize a fresh object (`cache = new Map()`,
`requestTimeout = 10000`) and record it in `ApiManager.instance`. -/
def newApiManager (g : ApiManagerStatic) : ApiManagerObject × ApiManagerStatic :=
  match g.registered with
  | some inst => (inst, g)
  | none =>
      let fresh : ApiManagerObject := ⟨g.nextObjId, [], 10000⟩
      (fresh, ⟨some fresh, g.nextObjId + 1⟩)

/-- JS `Math.trunc` on rationals (used to model the `%` remainder
operator, which truncates toward zero). -/
def jsTrunc (r : ℚ) : Int := if 0 ≤ r then ⌊r⌋ else ⌈r⌉

/-- JS `rating % 1`: `a % n` is `a - n * Math.trunc(a / n)` for numbers. -/
def jsModOne (r : ℚ) : ℚ := r - jsTrunc r

/-- `'c'.repeat(n)` for a single character.  (JS `String.repeat` throws on a
negative count; counts are taken in `Nat` here and all theorems stay in the
range where the source's counts are non-negative.) -/
def repeatChar (c : Char) (n : Nat) : String := String.mk (List.replicate n c)

/-- `ProductRenderer.createRatingStars(rating)`.  Ratings are JS numbers; the
floor, remainder and comparisons involved are exact on them, so they are
modelled as rationals. -/
def createRatingStars (rating : ℚ) : String :=
  let fullStars : Int := ⌊rating⌋
  let emptyStars : Int :=
    5 - fullStars - (if (1 : ℚ)/2 ≤ jsModOne rating then 1 else 0)
  repeatChar '★' fullStars.toNat
    ++ (if (1 : ℚ)/2 ≤ jsModOne rating then "☆" else "")
    ++ repeatChar '☆' emptyStars.toNat

/-- Specification-side predicate, stated from the words of the claim under
scrutiny (not from the source): the claim allows exactly the three error
kinds `Timeout`, `HttpStatus`, `Malformed`.  It is compared below against
the errors the embedded `makeRequest` actually produces. -/
def claimedThreeKinds : ApiError → Bool
  | ApiError.timeout => true
  | ApiError.httpStatus _ => true
  | ApiError.malformed => true
  | ApiError.network => false

/-!  Helper lemmas about the cache map and one fetch. -/

theorem mapGet_mapSet_self (m : Cache) (k : String) (v : CacheEntry) :
    mapGet (mapSet m k v) k = some v := by
  induction m with
  | nil => simp [mapSet, mapGet]
  | cons hd tl ih =>
      obtain ⟨k', w⟩ := hd
      by_cases h : k' = k <;> simp [mapSet, mapGet, h, ih]

theorem mem_keys_mapSet (m : Cache) (k a : String) (v : CacheEntry) :
    a ∈ (mapSet m k v).map Prod.fst ↔ a = k ∨ a ∈ m.map Prod.fst := by
  induction m with
  | nil => simp [mapSet]
  | cons hd tl ih =>
      obtain ⟨k', w⟩ := hd
      by_cases h : k' = k
      · subst h; simp [mapSet]
      · simp [mapSet, h, ih]; tauto

theorem mapSet_keys_nodup (m : Cache) (k : String) (v : CacheEntry)
    (h : (m.map Prod.fst).Nodup) : ((mapSet m k v).map Prod.fst).Nodup := by
  induction m with
  | nil => simp [mapSet]
  | cons hd tl ih =>
      obtain ⟨k', w⟩ := hd
      simp only [List.map_cons, List.nodup_cons] at h
      by_cases hk : k' = k
      · subst hk
        simpa [mapSet, List.nodup_cons] using h
      · rw [show mapSet ((k', w) :: tl) k v = (k', w) :: mapSet tl k v from by
          simp [mapSet, hk]]
        simp only [List.map_cons, List.nodup_cons]
        refine ⟨?_, ih h.2⟩
        intro hmem
        rcases (mem_keys_mapSet tl k k' v).mp hmem with h1 | h1
        · exact hk h1
        · exact h.1 h1

theorem fetchAndStore_networkRequests (st : ApiManagerState) (now : Nat)
    (key : String) (outcome : FetchOutcome) :
    (fetchAndStore st now key outcome).networkRequests = 1 := by
  rcases outcome with ⟨e, s⟩
  unfold fetchAndStore
  by_cases ht : requestTimeout < e
  · simp [ht]
  · cases s with
    | success status data => by_cases hok : responseOk status <;> simp [ht, hok]
    | badBody status => by_cases hok : responseOk status <;> simp [ht, hok]
    | netError => simp [ht]

theorem fetchAndStore_error_state (st : ApiManagerState) (now : Nat)
    (key : String) (outcome : FetchOutcome) (err : ApiError)
    (h : (fetchAndStore st now key outcome).result = Except.error err) :
    (fetchAndStore st now key outcome).state = st := by
  rcases outcome with ⟨e, s⟩
  unfold fetchAndStore at h ⊢
  by_cases ht : requestTimeout < e
  · simp [ht]
  · cases s with
    | success status data =>
        by_cases hok : responseOk status
        · simp [ht, hok] at h
        · simp [ht, hok]
    | badBody status => by_cases hok : responseOk status <;> simp [ht, hok]
    | netError => simp [ht]

theorem fetchAndStore_ok_state (st : ApiManagerState) (now : Nat)
    (key : String) (outcome : FetchOutcome) (d : JSON)
    (h : (fetchAndStore st now key outcome).result = Except.ok d) :
    (fetchAndStore st now key outcome).state.cache
      = mapSet st.cache key ⟨d, now + outcome.elapsed⟩ := by
  rcases outcome with ⟨e, s⟩
  unfold fetchAndStore at h ⊢
  by_cases ht : requestTimeout < e
  · simp [ht] at h
  · cases s with
    | success status data =>
        by_cases hok : responseOk status
        · have hd : data = d := by simpa [ht, hok] using h
          subst hd
          simp [ht, hok]
        · simp [ht, hok] at h
    | badBody status => by_cases hok : responseOk status <;> simp [ht, hok] at h
    | netError => simp [ht] at h

theorem makeRequest_hit (st : ApiManagerState) (now : Nat) (url : String)
    (options : List (String × JSON)) (outcome : FetchOutcome) (e : CacheEntry)
    (hget : mapGet st.cache (cacheKey url options) = some e)
    (hfresh : now - e.timestamp < 300000) :
    makeRequest st now url options outcome = ⟨Except.ok e.data, st, 0⟩ := by
  unfold makeRequest
  simp [hget, hfresh]

theorem makeRequest_miss (st : ApiManagerState) (now : Nat) (url : String)
    (options : List (String × JSON)) (outcome : FetchOutcome)
    (h : mapGet st.cache (cacheKey url options) = none
          ∨ ∃ e, mapGet st.cache (cacheKey url options) = some e
              ∧ 300000 ≤ now - e.timestamp) :
    makeRequest st now url options outcome
      = fetchAndStore st now (cacheKey url options) outcome := by
  unfold makeRequest
  rcases h with h | ⟨e, hget, hstale⟩
  · simp [h]
  · simp [hget, Nat.not_lt.mpr hstale]

theorem fetchAndStore_timeout (st : ApiManagerState) (now : Nat) (key : String)
    (outcome : FetchOutcome) (h : requestTimeout < outcome.elapsed) :
    fetchAndStore st now key outcome = ⟨Except.error ApiError.timeout, st, 1⟩ := by
  unfold fetchAndStore
  rw [if_pos h]

theorem fetchAndStore_success (st : ApiManagerState) (now : Nat) (key : String)
    (outcome : FetchOutcome) (status : Nat) (data : JSON)
    (hin : outcome.elapsed ≤ requestTimeout)
    (hs : outcome.settle = FetchSettle.success status data)
    (hok : responseOk status = true) :
    fetchAndStore st now key outcome
      = ⟨Except.ok data, ⟨mapSet st.cache key ⟨data, now + outcome.elapsed⟩⟩, 1⟩ := by
  unfold fetchAndStore
  rw [if_neg (Nat.not_lt.mpr hin), hs]
  simp [hok]

theorem fetchAndStore_http (st : ApiManagerState) (now : Nat) (key : String)
    (outcome : FetchOutcome) (status : Nat)
    (hin : outcome.elapsed ≤ requestTimeout)
    (hs : (∃ body, outcome.settle = FetchSettle.success status body)
          ∨ outcome.settle = FetchSettle.badBody status)
    (hok : responseOk status = false) :
    fetchAndStore st now key outcome
      = ⟨Except.error (ApiError.httpStatus status), st, 1⟩ := by
  unfold fetchAndStore
  rw [if_neg (Nat.not_lt.mpr hin)]
  rcases hs with ⟨body, hs⟩ | hs <;> rw [hs] <;> simp [hok]

theorem fetchAndStore_classified (st : ApiManagerState) (now : Nat)
    (key : String) (outcome : FetchOutcome) :
    (∃ d, (fetchAndStore st now key outcome).result = Except.ok d)
    ∨ (fetchAndStore st now key outcome).result = Except.error ApiError.timeout
    ∨ (∃ s, (fetchAndStore st now key outcome).result
          = Except.error (ApiError.httpStatus s))
    ∨ (fetchAndStore st now key outcome).result = Except.error ApiError.malformed
    ∨ (fetchAndStore st now key outcome).result = Except.error ApiError.network := by
  rcases outcome with ⟨e, s⟩
  unfold fetchAndStore
  by_cases ht : requestTimeout < e
  · right; left; simp [ht]
  · cases s with
    | success status data =>
        by_cases hok : responseOk status
        · left; exact ⟨data, by simp [ht, hok]⟩
        · right; right; left; exact ⟨status, by simp [ht, hok]⟩
    | badBody status =>
        by_cases hok : responseOk status
        · right; right; right; left; simp [ht, hok]
        · right; right; left; exact ⟨status, by simp [ht, hok]⟩
    | netError => right; right; right; right; simp [ht]

theorem fetchAndStore_cache_cases (st : ApiManagerState) (now : Nat)
    (key : String) (outcome : FetchOutcome) :
    (fetchAndStore st now key outcome).state.cache = st.cache
    ∨ ∃ d, (fetchAndStore st now key outcome).state.cache
        = mapSet st.cache key ⟨d, now + outcome.elapsed⟩ := by
  rcases outcome with ⟨e, s⟩
  unfold fetchAndStore
  by_cases ht : requestTimeout < e
  · left; simp [ht]
  · cases s with
    | success status data =>
        by_cases hok : responseOk status
        · right; exact ⟨data, by simp [ht, hok]⟩
        · left; simp [ht, hok]
    | badBody status => left; by_cases hok : responseOk status <;> simp [ht, hok]
    | netError => left; simp [ht]

theorem makeRequest_networkRequests_le_one (st : ApiManagerState) (now : Nat)
    (url : String) (options : List (String × JSON)) (outcome : FetchOutcome) :
    (makeRequest st now url options outcome).networkRequests ≤ 1 := by
  cases hg : mapGet st.cache (cacheKey url options) with
  | none =>
      rw [makeRequest_miss st now url options outcome (Or.inl hg),
        fetchAndStore_networkRequests]
  | some e =>
      by_cases hfresh : now - e.timestamp < 300000
      · rw [makeRequest_hit st now url options outcome e hg hfresh]
        exact Nat.zero_le 1
      · rw [makeRequest_miss st now url options outcome
          (Or.inr ⟨e, hg, Nat.not_lt.mp hfresh⟩), fetchAndStore_networkRequests]

theorem makeRequest_error_state (st : ApiManagerState) (now : Nat)
    (url : String) (options : List (String × JSON)) (outcome : FetchOutcome)
    (err : ApiError)
    (h : (makeRequest st now url options outcome).result = Except.error err) :
    (makeRequest st now url options outcome).state = st := by
  cases hg : mapGet st.cache (cacheKey url options) with
  | none =>
      rw [makeRequest_miss st now url options outcome (Or.inl hg)] at h ⊢
      exact fetchAndStore_error_state _ _ _ _ _ h
  | some e =>
      by_cases hfresh : now - e.timestamp < 300000
      · rw [makeRequest_hit st now url options outcome e hg hfresh] at h
        exact absurd h (by simp)
      · rw [makeRequest_miss st now url options outcome
          (Or.inr ⟨e, hg, Nat.not_lt.mp hfresh⟩)] at h ⊢
        exact fetchAndStore_error_state _ _ _ _ _ h

/-!  Claim theorems. -/

/-- C1 counterexample: on a transport-level failure of `fetch` (DNS or
connection error) `makeRequest` fails with the `Network` classification,
which is not one of the three kinds (`Timeout`, `HttpStatus`, `Malformed`)
the claim allows, refuting "fails with one of the three classified error
kinds" as stated. -/
theorem C1_counterexample_network_error :
    (makeRequest ⟨[]⟩ 0 "u" [] ⟨0, FetchSettle.netError⟩).result
        = Except.error ApiError.network
    ∧ claimedThreeKinds ApiError.network = false :=
  ⟨rfl, rfl⟩

/-- C1 (amended): every `makeRequest` call either returns parsed JSON data
or fails with one of the four classified error kinds `Timeout`,
`HttpStatus` (carrying the status code), `Malformed`, or `Network`; it
never throws an unclassified error to the caller's caller. -/
theorem C1_makeRequest_always_classified (st : ApiManagerState) (now : Nat)
    (url : String) (options : List (String × JSON)) (outcome : FetchOutcome) :
    (∃ d, (makeRequest st now url options outcome).result = Except.ok d)
    ∨ (makeRequest st now url options outcome).result
        = Except.error ApiError.timeout
    ∨ (∃ s, (makeRequest st now url options outcome).result
        = Except.error (ApiError.httpStatus s))
    ∨ (makeRequest st now url options outcome).result
        = Except.error ApiError.malformed
    ∨ (makeRequest st now url options outcome).result
        = Except.error ApiError.network := by
  cases hg : mapGet st.cache (cacheKey url options) with
  | none =>
      rw [makeRequest_miss st now url options outcome (Or.inl hg)]
      exact fetchAndStore_classified _ _ _ _
  | some e =>
      by_cases hfresh : now - e.timestamp < 300000
      · rw [makeRequest_hit st now url options outcome e hg hfresh]
        exact Or.inl ⟨e.data, rfl⟩
      · rw [makeRequest_miss st now url options outcome
          (Or.inr ⟨e, hg, Nat.not_lt.mp hfresh⟩)]
        exact fetchAndStore_classified _ _ _ _

/-- C2: if a cache entry exists for the fingerprint and its age (now minus
its stored timestamp) is below the 5-minute freshness window, `makeRequest`
returns that entry's stored data, issues no network request and leaves the
state untouched; hence two calls with the same fingerprint within the
freshness window (the second within the window of the data stored by a
successful first call) issue at most one network request in total. -/
theorem C2_fresh_cache_hit_no_network :
    (∀ (st : ApiManagerState) (now : Nat) (url : String)
        (options : List (String × JSON)) (outcome : FetchOutcome)
        (e : CacheEntry),
      mapGet st.cache (cacheKey url options) = some e →
      now - e.timestamp < 300000 →
        (makeRequest st now url options outcome).result = Except.ok e.data
        ∧ (makeRequest st now url options outcome).networkRequests = 0
        ∧ (makeRequest st now url options outcome).state = st)
    ∧ (∀ (st : ApiManagerState) (t₁ t₂ : Nat) (url : String)
        (options : List (String × JSON)) (o₁ o₂ : FetchOutcome) (d : JSON),
      (makeRequest st t₁ url options o₁).result = Except.ok d →
      t₂ - (t₁ + o₁.elapsed) < 300000 →
        (makeRequest st t₁ url options o₁).networkRequests
          + (makeRequest (makeRequest st t₁ url options o₁).state
              t₂ url options o₂).networkRequests ≤ 1) := by
  constructor
  · intro st now url options outcome e hget hfresh
    rw [makeRequest_hit st now url options outcome e hget hfresh]
    exact ⟨rfl, rfl, rfl⟩
  · intro st t₁ t₂ url options o₁ o₂ d h1 h2
    by_cases hcase : ∃ e, mapGet st.cache (cacheKey url options) = some e
        ∧ t₁ - e.timestamp < 300000
    · rcases hcase with ⟨e, hget, hfresh⟩
      rw [makeRequest_hit st t₁ url options o₁ e hget hfresh]
      simpa using makeRequest_networkRequests_le_one st t₂ url options o₂
    · have hmiss : mapGet st.cache (cacheKey url options) = none
          ∨ ∃ e, mapGet st.cache (cacheKey url options) = some e
              ∧ 300000 ≤ t₁ - e.timestamp := by
        cases hg : mapGet st.cache (cacheKey url options) with
        | none => exact Or.inl rfl
        | some e =>
            refine Or.inr ⟨e, rfl, Nat.not_lt.mp ?_⟩
            intro hlt
            exact hcase ⟨e, hg, hlt⟩
      rw [makeRequest_miss st t₁ url options o₁ hmiss] at h1 ⊢
      have hcache := fetchAndStore_ok_state st t₁ (cacheKey url options) o₁ d h1
      have hget2 : mapGet
          (fetchAndStore st t₁ (cacheKey url options) o₁).state.cache
          (cacheKey url options) = some ⟨d, t₁ + o₁.elapsed⟩ := by
        rw [hcache]
        exact mapGet_mapSet_self _ _ _
      rw [makeRequest_hit _ t₂ url options o₂ _ hget2 h2,
        fetchAndStore_networkRequests]
      simp

/-- C3: a `makeRequest` call for a fingerprint whose cache entry is older
than the freshness window issues exactly one network request and, when that
request succeeds (settles within the timeout with a 2xx status and a body
that parses), returns the new data and replaces — does not merge — the
prior entry with the new data under the then-current timestamp. -/
theorem C3_stale_entry_refetch_replaces :
    ∀ (st : ApiManagerState) (now : Nat) (url : String)
      (options : List (String × JSON)) (outcome : FetchOutcome)
      (e : CacheEntry),
      mapGet st.cache (cacheKey url options) = some e →
      300000 ≤ now - e.timestamp →
        (makeRequest st now url options outcome).networkRequests = 1
        ∧ (∀ (status : Nat) (data : JSON),
            outcome.elapsed ≤ requestTimeout →
            outcome.settle = FetchSettle.success status data →
            responseOk status = true →
              (makeRequest st now url options outcome).result = Except.ok data
              ∧ (makeRequest st now url options outcome).state.cache
                  = mapSet st.cache (cacheKey url options)
                      ⟨data, now + outcome.elapsed⟩
              ∧ mapGet (makeRequest st now url options outcome).state.cache
                  (cacheKey url options)
                  = some ⟨data, now + outcome.elapsed⟩) := by
  intro st now url options outcome e hget hstale
  rw [makeRequest_miss st now url options outcome (Or.inr ⟨e, hget, hstale⟩)]
  refine ⟨fetchAndStore_networkRequests _ _ _ _, ?_⟩
  intro status data hin hs hok
  rw [fetchAndStore_success st now (cacheKey url options) outcome status data
    hin hs hok]
  exact ⟨rfl, rfl, mapGet_mapSet_self _ _ _⟩

/-- C4: for every `makeRequest` call that goes to the network (no entry, or
a stale entry, for the fingerprint), the request is bounded by the fixed
10-second `requestTimeout`; if the fetch has not settled when that bound
elapses it is aborted and the call fails with a `Timeout` error, leaving
the cache untouched — no stale or partial data is returned. -/
theorem C4_timeout_aborts_with_timeout_error :
    ∀ (st : ApiManagerState) (now : Nat) (url : String)
      (options : List (String × JSON)) (outcome : FetchOutcome),
      (mapGet st.cache (cacheKey url options) = none
        ∨ ∃ e, mapGet st.cache (cacheKey url options) = some e
            ∧ 300000 ≤ now - e.timestamp) →
      requestTimeout < outcome.elapsed →
        (makeRequest st now url options outcome).result
            = Except.error ApiError.timeout
        ∧ (makeRequest st now url options outcome).state = st
        ∧ requestTimeout = 10000 := by
  intro st now url options outcome hmiss hslow
  rw [makeRequest_miss st now url options outcome hmiss,
    fetchAndStore_timeout st now (cacheKey url options) outcome hslow]
  exact ⟨rfl, rfl, rfl⟩

/-- C5: when the network response completes (within the timeout) with a
non-2xx status, `makeRequest` fails with an `HttpStatus` error carrying the
observed status code; and on every failure of `makeRequest`, whatever its
kind, the cache mapping is left unchanged — no entry is added or replaced
by a failed call. -/
theorem C5_http_error_carries_status_cache_unchanged :
    (∀ (st : ApiManagerState) (now : Nat) (url : String)
        (options : List (String × JSON)) (outcome : FetchOutcome)
        (status : Nat),
      (mapGet st.cache (cacheKey url options) = none
        ∨ ∃ e, mapGet st.cache (cacheKey url options) = some e
            ∧ 300000 ≤ now - e.timestamp) →
      outcome.elapsed ≤ requestTimeout →
      ((∃ body, outcome.settle = FetchSettle.success status body)
        ∨ outcome.settle = FetchSettle.badBody status) →
      responseOk status = false →
        (makeRequest st now url options outcome).result
            = Except.error (ApiError.httpStatus status)
        ∧ (makeRequest st now url options outcome).state = st)
    ∧ (∀ (st : ApiManagerState) (now : Nat) (url : String)
        (options : List (String × JSON)) (outcome : FetchOutcome)
        (err : ApiError),
      (makeRequest st now url options outcome).result = Except.error err →
        (makeRequest st now url options outcome).state = st) := by
  constructor
  · intro st now url options outcome status hmiss hin hs hok
    rw [makeRequest_miss st now url options outcome hmiss,
      fetchAndStore_http st now (cacheKey url options) outcome status hin hs hok]
    exact ⟨rfl, rfl⟩
  · intro st now url options outcome err h
    exact makeRequest_error_state st now url options outcome err h

/-- C6: when the underlying request for the products URL yields a catalog
response that is an array of N product objects, `fetchProducts` returns
exactly those N items unchanged; when the underlying request fails with any
error, it returns an empty list instead of propagating the error. -/
theorem C6_fetchProducts_unchanged_or_empty :
    (∀ (st : ApiManagerState) (now limit : Nat) (outcome : FetchOutcome)
        (items : List JSON),
      (makeRequest st now (baseUrlProducts ++ "?limit=" ++ toString limit) []
          outcome).result = Except.ok (JSON.arr items) →
        (fetchProducts st now limit outcome).1 = JSON.arr items)
    ∧ (∀ (st : ApiManagerState) (now limit : Nat) (outcome : FetchOutcome)
        (err : ApiError),
      (makeRequest st now (baseUrlProducts ++ "?limit=" ++ toString limit) []
          outcome).result = Except.error err →
        (fetchProducts st now limit outcome).1 = JSON.arr []) := by
  constructor
  · intro st now limit outcome items h
    unfold fetchProducts
    simp only [h]
  · intro st now limit outcome err h
    unfold fetchProducts
    simp only [h]

/-- C7: the explicit cache-clear operation removes all entries from the
cache, so the next `makeRequest` call, for any fingerprint (in particular
any previously-cached one), always issues a network request. -/
theorem C7_clearCache_forces_network :
    (∀ st : ApiManagerState, (clearCache st).cache = [])
    ∧ (∀ (st : ApiManagerState) (now : Nat) (url : String)
        (options : List (String × JSON)) (outcome : FetchOutcome),
      (makeRequest (clearCache st) now url options outcome).networkRequests
        = 1) := by
  refine ⟨fun st => rfl, fun st now url options outcome => ?_⟩
  rw [makeRequest_miss (clearCache st) now url options outcome (Or.inl rfl),
    fetchAndStore_networkRequests]

/-- C8: the fingerprint of every request is the URL string concatenated
with a deterministic serialization of the options object (an underscore
followed by its `JSON.stringify`), and the cache holds at most one entry
per fingerprint — distinctness of the stored keys is preserved by every
`makeRequest` and by clearing. -/
theorem C8_fingerprint_key_unique :
    (∀ (url : String) (options : List (String × JSON)),
      cacheKey url options = url ++ "_" ++ jsonStringify (JSON.obj options))
    ∧ (∀ (st : ApiManagerState) (now : Nat) (url : String)
        (options : List (String × JSON)) (outcome : FetchOutcome),
      (st.cache.map Prod.fst).Nodup →
      ((makeRequest st now url options outcome).state.cache.map
          Prod.fst).Nodup)
    ∧ (∀ st : ApiManagerState,
      ((clearCache st).cache.map Prod.fst).Nodup) := by
  refine ⟨fun url options => rfl, ?_, fun st => by simp [clearCache]⟩
  intro st now url options outcome hnd
  have hfs : ∀ key, ((fetchAndStore st now key outcome).state.cache.map
      Prod.fst).Nodup := by
    intro key
    rcases fetchAndStore_cache_cases st now key outcome with hc | ⟨d, hc⟩
    · rw [hc]; exact hnd
    · rw [hc]; exact mapSet_keys_nodup _ _ _ hnd
  cases hg : mapGet st.cache (cacheKey url options) with
  | none =>
      rw [makeRequest_miss st now url options outcome (Or.inl hg)]
      exact hfs _
  | some e =>
      by_cases hfresh : now - e.timestamp < 300000
      · rw [makeRequest_hit st now url options outcome e hg hfresh]
        exact hnd
      · rw [makeRequest_miss st now url options outcome
          (Or.inr ⟨e, hg, Nat.not_lt.mp hfresh⟩)]
        exact hfs _

/-- C9: every construction of `ApiManager` after the first returns the
already-existing instance — the same object, hence the same cache map and
timeout configuration — and leaves the static state unchanged, so
constructing `ApiManager` twice yields two references to the same state. -/
theorem C9_constructor_returns_existing_instance (g : ApiManagerStatic) :
    (newApiManager (newApiManager g).2).1 = (newApiManager g).1
    ∧ (newApiManager (newApiManager g).2).2 = (newApiManager g).2 := by
  rcases g with ⟨reg, n⟩
  cases reg <;> exact ⟨rfl, rfl⟩

/-- C10: for every rating between 0 and 5, `createRatingStars` returns a
string of exactly 5 star characters: `⌊rating⌋` full stars, then one
half-star marker exactly when the fractional part of the rating is at least
0.5, then empty stars for the remainder. -/
theorem C10_createRatingStars_five_stars (r : ℚ) (h0 : 0 ≤ r) (h5 : r ≤ 5) :
    (createRatingStars r).length = 5
    ∧ createRatingStars r
        = repeatChar '★' (⌊r⌋).toNat
          ++ (if (1 : ℚ)/2 ≤ Int.fract r then "☆" else "")
          ++ repeatChar '☆'
              (5 - (⌊r⌋).toNat
                - (if (1 : ℚ)/2 ≤ Int.fract r then 1 else 0)) := by
  have hmod : jsModOne r = Int.fract r := by
    unfold jsModOne jsTrunc
    rw [if_pos h0]
    rfl
  have hf0 : 0 ≤ ⌊r⌋ := Int.floor_nonneg.mpr h0
  have hf5 : ⌊r⌋ ≤ 5 := by simpa using Int.floor_le_floor h5
  have hlen1 : ∀ (c : Char) (n : Nat), (repeatChar c n).length = n := by
    intro c n
    simp [repeatChar, String.length]
  by_cases hh : (1 : ℚ)/2 ≤ Int.fract r
  · have hf4 : ⌊r⌋ ≤ 4 := by
      by_contra hgt
      push_neg at hgt
      have h45 : ⌊r⌋ = 5 := le_antisymm hf5 (by omega)
      have h5le : (5 : ℚ) ≤ r := by
        have := Int.floor_le r
        rw [h45] at this
        exact_mod_cast this
      have hr5 : r = 5 := le_antisymm h5 h5le
      rw [hr5] at hh
      norm_num [Int.fract] at hh
    constructor
    · simp only [createRatingStars, hmod, if_pos hh]
      rw [String.length_append, String.length_append, hlen1, hlen1]
      have hm : ("☆" : String).length = 1 := rfl
      rw [hm]
      omega
    · simp only [createRatingStars, hmod, if_pos hh]
      rw [show ((5 : Int) - ⌊r⌋ - 1).toNat = 5 - (⌊r⌋).toNat - 1 from by omega]
  · constructor
    · simp only [createRatingStars, hmod, if_neg hh]
      rw [String.length_append, String.length_append, hlen1, hlen1]
      have hm : ("" : String).length = 0 := rfl
      rw [hm]
      omega
    · simp only [createRatingStars, hmod, if_neg hh]
      rw [show ((5 : Int) - ⌊r⌋ - 0).toNat = 5 - (⌊r⌋).toNat - 0 from by omega]

/-!  Concrete witnesses instantiating the conditional theorems above. -/

/-- Witness for C2: a 50ms-old entry is served from the cache, and a miss
followed by a second call 10ms later issues one request in total. -/
theorem C2_witness :
    (makeRequest ⟨[(cacheKey "u" [], ⟨JSON.num 7, 50⟩)]⟩ 100 "u" []
        ⟨0, FetchSettle.netError⟩).result = Except.ok (JSON.num 7)
    ∧ (makeRequest ⟨[]⟩ 0 "u" []
          ⟨5, FetchSettle.success 200 (JSON.num 1)⟩).networkRequests
        + (makeRequest
            (makeRequest ⟨[]⟩ 0 "u" []
              ⟨5, FetchSettle.success 200 (JSON.num 1)⟩).state
            10 "u" [] ⟨0, FetchSettle.netError⟩).networkRequests ≤ 1 :=
  ⟨(C2_fresh_cache_hit_no_network.1 ⟨[(cacheKey "u" [], ⟨JSON.num 7, 50⟩)]⟩
      100 "u" [] ⟨0, FetchSettle.netError⟩ ⟨JSON.num 7, 50⟩ rfl (by decide)).1,
   C2_fresh_cache_hit_no_network.2 ⟨[]⟩ 0 10 "u" []
      ⟨5, FetchSettle.success 200 (JSON.num 1)⟩ ⟨0, FetchSettle.netError⟩
      (JSON.num 1) rfl (by decide)⟩

/-- Witness for C3: a 5-minute-old entry is refetched (one request) and
replaced by the freshly fetched value with the current timestamp. -/
theorem C3_witness :
    (makeRequest ⟨[(cacheKey "u" [], ⟨JSON.num 2, 0⟩)]⟩ 300000 "u" []
        ⟨5, FetchSettle.success 201 (JSON.num 3)⟩).networkRequests = 1
    ∧ (makeRequest ⟨[(cacheKey "u" [], ⟨JSON.num 2, 0⟩)]⟩ 300000 "u" []
        ⟨5, FetchSettle.success 201 (JSON.num 3)⟩).result
          = Except.ok (JSON.num 3)
    ∧ mapGet (makeRequest ⟨[(cacheKey "u" [], ⟨JSON.num 2, 0⟩)]⟩ 300000 "u" []
        ⟨5, FetchSettle.success 201 (JSON.num 3)⟩).state.cache
        (cacheKey "u" []) = some ⟨JSON.num 3, 300000 + 5⟩ :=
  have h := C3_stale_entry_refetch_replaces
    ⟨[(cacheKey "u" [], ⟨JSON.num 2, 0⟩)]⟩ 300000 "u" []
    ⟨5, FetchSettle.success 201 (JSON.num 3)⟩ ⟨JSON.num 2, 0⟩ rfl (by decide)
  ⟨h.1, (h.2 201 (JSON.num 3) (by decide) rfl rfl).1,
    (h.2 201 (JSON.num 3) (by decide) rfl rfl).2.2⟩

/-- Witness for C4: a fetch that would settle after 10001ms is aborted and
fails with `Timeout`. -/
theorem C4_witness :
    (makeRequest ⟨[]⟩ 0 "u" [] ⟨10001, FetchSettle.netError⟩).result
      = Except.error ApiError.timeout :=
  (C4_timeout_aborts_with_timeout_error ⟨[]⟩ 0 "u" []
    ⟨10001, FetchSettle.netError⟩ (Or.inl rfl) (by decide)).1

/-- Witness for C5: a 404 response fails with `HttpStatus 404` and leaves
the cache unchanged. -/
theorem C5_witness :
    (makeRequest ⟨[]⟩ 0 "u" []
        ⟨5, FetchSettle.success 404 (JSON.num 0)⟩).result
      = Except.error (ApiError.httpStatus 404)
    ∧ (makeRequest ⟨[]⟩ 0 "u" []
        ⟨5, FetchSettle.success 404 (JSON.num 0)⟩).state = ⟨[]⟩ :=
  ⟨(C5_http_error_carries_status_cache_unchanged.1 ⟨[]⟩ 0 "u" []
      ⟨5, FetchSettle.success 404 (JSON.num 0)⟩ 404 (Or.inl rfl) (by decide)
      (Or.inl ⟨JSON.num 0, rfl⟩) rfl).1,
   C5_http_error_carries_status_cache_unchanged.2 ⟨[]⟩ 0 "u" []
      ⟨5, FetchSettle.success 404 (JSON.num 0)⟩ (ApiError.httpStatus 404) rfl⟩

/-- Witness for C6: a 3-element catalog response comes back unchanged, and
a transport failure degrades to the empty array. -/
theorem C6_witness :
    (fetchProducts ⟨[]⟩ 0 3
        ⟨5, FetchSettle.success 200
          (JSON.arr [JSON.num 1, JSON.num 2, JSON.num 3])⟩).1
      = JSON.arr [JSON.num 1, JSON.num 2, JSON.num 3]
    ∧ (fetchProducts ⟨[]⟩ 0 3 ⟨5, FetchSettle.netError⟩).1 = JSON.arr [] :=
  ⟨C6_fetchProducts_unchanged_or_empty.1 ⟨[]⟩ 0 3
      ⟨5, FetchSettle.success 200
        (JSON.arr [JSON.num 1, JSON.num 2, JSON.num 3])⟩
      [JSON.num 1, JSON.num 2, JSON.num 3] rfl,
   C6_fetchProducts_unchanged_or_empty.2 ⟨[]⟩ 0 3 ⟨5, FetchSettle.netError⟩
      ApiError.network rfl⟩

/-- Witness for C8: the key-distinctness invariant holds concretely after a
`makeRequest` that stores a fresh entry into an initially empty cache. -/
theorem C8_witness :
    ((makeRequest ⟨[]⟩ 0 "u" []
        ⟨5, FetchSettle.success 200 (JSON.num 1)⟩).state.cache.map
      Prod.fst).Nodup :=
  C8_fingerprint_key_unique.2.1 ⟨[]⟩ 0 "u" []
    ⟨5, FetchSettle.success 200 (JSON.num 1)⟩ (by simp)

/-- Witness for C10: a rating of 3.5 renders as exactly 5 star characters. -/
theorem C10_witness : (createRatingStars ((7 : ℚ)/2)).length = 5 :=
  (C10_createRatingStars_five_stars ((7 : ℚ)/2) (by norm_num) (by norm_num)).1
